import Mathlib

/-!
Verification development for the Paddle webhook receiver
(chrono-visual-crafter, Supabase edge function).

The TypeScript source is shallowly embedded: JavaScript strings that may be
`undefined`/`null` become `Option String`, JavaScript truthiness on strings
(`undefined`, `null` and `""` are falsy) becomes `truthy`, the `||` operator
on such values becomes `jsOr`, `String.prototype.split` becomes `jsSplit`,
`parseInt(s, 10)` becomes `jsParseInt`, and `toLowerCase` becomes
`jsToLower`.  The external HMAC-SHA256 primitive (imported from the Deno
standard library by the source) is abstracted as an explicit function
parameter `hmacHex : String → String → String` (key, message ↦ hex digest).
The Supabase data store is modelled as an in-memory state `Stores` with the
PostgREST behaviour the code branches on: a `.single()` read or update that
matches no row reports the error code PGRST116; store calls themselves are
assumed not to fail otherwise.
-/

namespace PaddleWebhook

/-- JavaScript truthiness of a possibly-undefined string: `undefined`, `null`
and the empty string are falsy, every other string is truthy. -/
def truthy : Option String → Bool
  | none => false
  | some s => !s.isEmpty

/-- JavaScript `a || b` on possibly-undefined strings: the first truthy
operand wins. -/
def jsOr (a b : Option String) : Option String :=
  if truthy a then a else b

/-- JavaScript `String.prototype.toLowerCase` (ASCII-adequate model). -/
def jsToLower (s : String) : String :=
  ⟨s.data.map Char.toLower⟩

/-- JavaScript `s.startsWith(pre)`. -/
def jsStartsWith (s pre : String) : Bool :=
  pre.data.isPrefixOf s.data

/-- Helper for `jsSplit`: split a character list at a separator character. -/
def splitChars (sep : Char) : List Char → List (List Char)
  | [] => [[]]
  | c :: cs =>
    match splitChars sep cs with
    | [] => if c = sep then [[], []] else [[c]]
    | cur :: rest => if c = sep then [] :: cur :: rest else (c :: cur) :: rest

/-- JavaScript `s.split(sep)` for a one-character separator. -/
def jsSplit (s : String) (sep : Char) : List String :=
  (splitChars sep s.data).map fun cs => ⟨cs⟩

/-- Numeric value of a run of ASCII digits. -/
def digitsToNat (ds : List Char) : Nat :=
  ds.foldl (fun a c => a * 10 + (c.toNat - 48)) 0

/-- JavaScript `parseInt(s, 10)`: skip leading whitespace, read an optional
sign and then a maximal run of decimal digits, ignoring any trailing
characters; `none` models the NaN result when no digit is found. -/
def jsParseInt (s : String) : Option Int :=
  let cs := s.data.dropWhile fun c => c.isWhitespace
  let signAndRest : Int × List Char :=
    match cs with
    | '-' :: rest => (-1, rest)
    | '+' :: rest => (1, rest)
    | rest => (1, rest)
  let ds := signAndRest.2.takeWhile fun c => c.isDigit
  if ds.isEmpty then none
  else some (signAndRest.1 * (digitsToNat ds : Int))

/-- Result record of `verifyPaddleSignature` (`{ isValid, reason? }`). -/
structure VerifyResult where
  isValid : Bool
  reason : Option String
deriving Repr, DecidableEq

/-- Extract the value of the first `;`-separated part of the signature header
that starts with the given prefix (`parts.find(p => p.startsWith(pre))?.split("=")[1]`). -/
def headerField (parts : List String) (pre : String) : Option String :=
  (parts.find? fun p => jsStartsWith p pre).bind fun p => (jsSplit p '=').get? 1

/-- The five-minute tolerance window (`WEBHOOK_TIMESTAMP_TOLERANCE_SECONDS`). -/
def webhookTimestampToleranceSeconds : Nat := 300

/-- Shallow embedding of `verifyPaddleSignature` from the source.  The
external HMAC-SHA256 primitive is the parameter `hmacHex` (key, message ↦
hex digest); `appEnvironment` is the resolved `APP_ENVIRONMENT` value,
`signingSecret` the raw `PADDLE_WEBHOOK_SIGNING_SECRET` environment value,
`signatureHeader` the `Paddle-Signature` request header, and
`currentTimestamp` the value of `Math.floor(Date.now() / 1000)`. -/
def verifyPaddleSignature (hmacHex : String → String → String)
    (appEnvironment : String) (signingSecret : Option String)
    (signatureHeader : Option String) (rawBody : String)
    (currentTimestamp : Int) : VerifyResult :=
  if appEnvironment ≠ "production" then
    { isValid := true, reason := some "bypassed_for_development" }
  else if !truthy signingSecret then
    { isValid := false, reason := some "missing_signing_secret" }
  else if !truthy signatureHeader then
    { isValid := false, reason := some "missing_signature_header" }
  else
    let parts := jsSplit (signatureHeader.getD "") ';'
    let timestampStr := headerField parts "ts="
    let h1Hash := headerField parts "h1="
    if !truthy timestampStr || !truthy h1Hash then
      { isValid := false, reason := some "invalid_signature_format" }
    else
      match jsParseInt (timestampStr.getD "") with
      | none => { isValid := false, reason := some "invalid_timestamp" }
      | some timestamp =>
        if (currentTimestamp - timestamp).natAbs > webhookTimestampToleranceSeconds then
          { isValid := false, reason := some "timestamp_too_old" }
        else
          let signedPayload := timestampStr.getD "" ++ ":" ++ rawBody
          let computedHash := hmacHex (signingSecret.getD "") signedPayload
          if jsToLower computedHash = jsToLower (h1Hash.getD "") then
            { isValid := true, reason := some "valid" }
          else
            { isValid := false, reason := some "signature_mismatch" }

/-- The `custom_data` object carried by events (`{userId, email, full_name}`);
every field may be absent. -/
structure CustomData where
  userId : Option String
  email : Option String
  full_name : Option String
deriving Repr, DecidableEq

/-- The empty object used for `subscription.custom_data || {}`. -/
def emptyCustomData : CustomData :=
  { userId := none, email := none, full_name := none }

/-- One entry of the `items` array of an event (`{product_id, price_id}`). -/
structure Item where
  product_id : Option String
  price_id : Option String
deriving Repr, DecidableEq

/-- The `current_billing_period` object. -/
structure BillingPeriod where
  starts_at : Option String
  ends_at : Option String
deriving Repr, DecidableEq

/-- The polymorphic `data` object of a webhook event; subscription events use
`id`, `customer_id`, `status`, `items`, `product_id`, `custom_data` and
`current_billing_period`, transaction events additionally use
`subscription_id`. -/
structure EventData where
  id : Option String
  customer_id : Option String
  status : Option String
  items : Option (List Item)
  product_id : Option String
  custom_data : Option CustomData
  current_billing_period : Option BillingPeriod
  subscription_id : Option String
deriving Repr, DecidableEq

/-- The all-absent `data` object (used only to totalise field access that the
source performs after validation has guaranteed `data` is present). -/
def emptyEventData : EventData :=
  { id := none, customer_id := none, status := none, items := none,
    product_id := none, custom_data := none, current_billing_period := none,
    subscription_id := none }

/-- A decoded webhook payload (`{event_type, event_id, data}`). -/
structure Payload where
  event_type : Option String
  event_id : Option String
  data : Option EventData
deriving Repr, DecidableEq

/-- Result record of `validateWebhookPayload` (`{ isValid, errors }`). -/
structure ValidationResult where
  isValid : Bool
  errors : List String
deriving Repr, DecidableEq

/-- Shallow embedding of `validateWebhookPayload`: accumulate one error per
failed presence check; the `userId` check runs only when `data` is present
(`payload.data && !payload.data.custom_data?.userId`). -/
def validateWebhookPayload (payload : Payload) : ValidationResult :=
  let errors : List String := []
  let errors := if !truthy payload.event_type then errors ++ ["Missing event_type"] else errors
  let errors := if !truthy payload.event_id then errors ++ ["Missing event_id"] else errors
  let errors := if payload.data.isNone then errors ++ ["Missing data object"] else errors
  let errors :=
    if payload.data.isSome
        && !truthy ((payload.data.bind EventData.custom_data).bind CustomData.userId) then
      errors ++ ["Missing userId in custom_data"]
    else errors
  { isValid := errors.isEmpty, errors := errors }

/-- A row of the `profiles` table. -/
structure Profile where
  user_id : String
  email : String
  full_name : String
  subscription_status : String
  subscription_plan : String
  paddle_customer_id : Option String
  created_at : String
  updated_at : String
deriving Repr, DecidableEq

/-- A row of the read-only `subscription_plans` table. -/
structure Plan where
  id : String
  paddle_product_id : String
  name : String
deriving Repr, DecidableEq

/-- A row of the `user_subscriptions` table. -/
structure UserSubscription where
  user_id : String
  plan_id : String
  paddle_subscription_id : Option String
  status : Option String
  current_period_start : Option String
  current_period_end : Option String
  updated_at : String
deriving Repr, DecidableEq

/-- The in-memory model of the Supabase data store. -/
structure Stores where
  profiles : List Profile
  subscription_plans : List Plan
  user_subscriptions : List UserSubscription
deriving Repr, DecidableEq

/-- Result record of `upsertUserProfile` (`{ success, profile?, error? }`). -/
structure UpsertProfileResult where
  success : Bool
  profile : Option Profile
  error : Option String
deriving Repr, DecidableEq

/-- The `subscriptionData` argument of `upsertUserProfile`
(`{ status, planName, customerId }`). -/
structure SubscriptionUpdate where
  status : Option String
  planName : Option String
  customerId : Option String
deriving Repr, DecidableEq

/-- Shallow embedding of `upsertUserProfile`: build `profileData` with the
source defaults (`email || "unknown@example.com"`, `full_name || "Unknown
User"`, `status || "active"`, `planName || "unknown"`), try the
update-by-`user_id` first, and on the PGRST116 no-row error insert a fresh
row (the update path leaves `created_at` untouched, the insert path sets
it). `nowIso` stands for `new Date().toISOString()`. -/
def upsertUserProfile (store : Stores) (nowIso : String) (userId : String)
    (customData : CustomData) (subscriptionData : SubscriptionUpdate) :
    UpsertProfileResult × Stores :=
  let profileData : Profile :=
    { user_id := userId
      email := (jsOr customData.email (some "unknown@example.com")).getD ""
      full_name := (jsOr customData.full_name (some "Unknown User")).getD ""
      subscription_status := (jsOr subscriptionData.status (some "active")).getD ""
      subscription_plan := (jsOr subscriptionData.planName (some "unknown")).getD ""
      paddle_customer_id := subscriptionData.customerId
      created_at := ""
      updated_at := nowIso }
  match store.profiles.find? fun pr => pr.user_id == userId with
  | some old =>
    let updated := { profileData with created_at := old.created_at }
    ({ success := true, profile := some updated, error := none },
     { store with
        profiles := store.profiles.map fun pr =>
          if pr.user_id == userId then updated else pr })
  | none =>
    let newProfile := { profileData with created_at := nowIso }
    ({ success := true, profile := some newProfile, error := none },
     { store with profiles := store.profiles ++ [newProfile] })

/-- The argument record of `upsertSubscription`. -/
structure SubscriptionRecordData where
  userId : String
  planId : String
  paddleSubscriptionId : Option String
  status : Option String
  currentPeriodStart : Option String
  currentPeriodEnd : Option String
deriving Repr, DecidableEq

/-- Result record of `upsertSubscription`. -/
structure UpsertSubscriptionResult where
  success : Bool
  subscription : Option UserSubscription
  error : Option String
deriving Repr, DecidableEq

/-- Shallow embedding of `upsertSubscription`: a store upsert of a
`user_subscriptions` row keyed by `paddle_subscription_id`. -/
def upsertSubscription (store : Stores) (nowIso : String)
    (subscriptionData : SubscriptionRecordData) :
    UpsertSubscriptionResult × Stores :=
  let row : UserSubscription :=
    { user_id := subscriptionData.userId
      plan_id := subscriptionData.planId
      paddle_subscription_id := subscriptionData.paddleSubscriptionId
      status := subscriptionData.status
      current_period_start := subscriptionData.currentPeriodStart
      current_period_end := subscriptionData.currentPeriodEnd
      updated_at := nowIso }
  match store.user_subscriptions.find?
      (fun s => s.paddle_subscription_id == subscriptionData.paddleSubscriptionId) with
  | some _ =>
    ({ success := true, subscription := some row, error := none },
     { store with
        user_subscriptions := store.user_subscriptions.map fun s =>
          if s.paddle_subscription_id == subscriptionData.paddleSubscriptionId then row else s })
  | none =>
    ({ success := true, subscription := some row, error := none },
     { store with user_subscriptions := store.user_subscriptions ++ [row] })

/-- Result record of `validateUser` (`{ isValid, profile?, error? }`). -/
structure UserValidation where
  isValid : Bool
  profile : Option Profile
  error : Option String
deriving Repr, DecidableEq

/-- Shallow embedding of `validateUser`: a `.single()` read of `profiles`
by `user_id`; the PGRST116 no-row error is treated as a valid state with no
profile (the profile will be created downstream).  In the no-store-failure
model the unexpected-error branch never fires. -/
def validateUser (store : Stores) (userId : String) : UserValidation :=
  match store.profiles.find? fun pr => pr.user_id == userId with
  | some profile => { isValid := true, profile := some profile, error := none }
  | none => { isValid := true, profile := none, error := none }

/-- Handler result record (`{ success, message? }`). -/
structure HandlerResult where
  success : Bool
  message : Option String
deriving Repr, DecidableEq

/-- The first element of the optional `items` array (`items?.[0]`). -/
def firstItem (d : EventData) : Option Item :=
  d.items.bind List.head?

/-- Product-identifier resolution of the subscription path:
`subscription.items?.[0]?.product_id || subscription.items?.[0]?.price_id ||
subscription.product_id`. -/
def resolvedProductId (d : EventData) : Option String :=
  jsOr (jsOr ((firstItem d).bind Item.product_id) ((firstItem d).bind Item.price_id))
    d.product_id

/-- Shallow embedding of `handleSubscriptionEvent` (subscription.created /
subscription.updated).  The source reads `payload.data` directly; it is
invoked only after validation has guaranteed `data` is present, which the
`getD emptyEventData` totalisation reflects. -/
def handleSubscriptionEvent (store : Stores) (nowIso : String) (payload : Payload) :
    HandlerResult × Stores :=
  let subscription := payload.data.getD emptyEventData
  let customData := subscription.custom_data.getD emptyCustomData
  let userId := customData.userId.getD ""
  let userValidation := validateUser store userId
  if !userValidation.isValid then
    ({ success := false,
       message := some ("User validation failed: " ++ (userValidation.error.getD "undefined")) },
     store)
  else
    let productId := resolvedProductId subscription
    if !truthy productId then
      ({ success := false, message := some "Product ID missing in subscription data" }, store)
    else
      match store.subscription_plans.find? fun pl => pl.paddle_product_id == productId.getD "" with
      | none =>
        ({ success := false,
           message := some ("Subscription plan not found for product ID: " ++ productId.getD "") },
         store)
      | some plan =>
        let profileStep :=
          upsertUserProfile store nowIso userId customData
            { status := subscription.status
              planName := some (jsToLower plan.name)
              customerId := subscription.customer_id }
        if !profileStep.1.success then
          ({ success := false,
             message := some ("Profile update failed: " ++ (profileStep.1.error.getD "undefined")) },
           profileStep.2)
        else
          let subscriptionStep :=
            upsertSubscription profileStep.2 nowIso
              { userId := userId
                planId := plan.id
                paddleSubscriptionId := subscription.id
                status := subscription.status
                currentPeriodStart := subscription.current_billing_period.bind BillingPeriod.starts_at
                currentPeriodEnd := subscription.current_billing_period.bind BillingPeriod.ends_at }
          if !subscriptionStep.1.success then
            ({ success := false,
               message := some ("Subscription update failed: " ++
                 (subscriptionStep.1.error.getD "undefined")) },
             subscriptionStep.2)
          else
            ({ success := true,
               message := some ("Subscription " ++ subscription.status.getD "undefined" ++
                 " processed successfully for plan " ++ plan.name) },
             subscriptionStep.2)

/-- Shallow embedding of `handleTransactionCompleted`: acts only on
transactions with no `subscription_id` and at least one line item, resolves
the product identifier as `item.product_id || item.price_id` (no top-level
fallback on this path), and if a plan matches upserts the profile with
status forced to "active"; in every other case the event is acknowledged
as processed with no store mutation. -/
def handleTransactionCompleted (store : Stores) (nowIso : String) (payload : Payload) :
    HandlerResult × Stores :=
  let transaction := payload.data.getD emptyEventData
  let customData := transaction.custom_data.getD emptyCustomData
  let userId := customData.userId.getD ""
  let userValidation := validateUser store userId
  if !userValidation.isValid then
    ({ success := false,
       message := some ("User validation failed: " ++ (userValidation.error.getD "undefined")) },
     store)
  else if !truthy transaction.subscription_id && (transaction.items.getD []).length > 0 then
    let item := (firstItem transaction).getD { product_id := none, price_id := none }
    let productId := jsOr item.product_id item.price_id
    if truthy productId then
      match store.subscription_plans.find? fun pl => pl.paddle_product_id == productId.getD "" with
      | some plan =>
        let profileStep :=
          upsertUserProfile store nowIso userId customData
            { status := some "active"
              planName := some (jsToLower plan.name)
              customerId := transaction.customer_id }
        if !profileStep.1.success then
          ({ success := false,
             message := some ("Profile update failed for one-time payment: " ++
               (profileStep.1.error.getD "undefined")) },
           profileStep.2)
        else
          ({ success := true, message := some "Transaction completed event processed successfully" },
           profileStep.2)
      | none =>
        ({ success := true, message := some "Transaction completed event processed successfully" },
         store)
    else
      ({ success := true, message := some "Transaction completed event processed successfully" },
       store)
  else
    ({ success := true, message := some "Transaction completed event processed successfully" },
     store)

/-- Shallow embedding of `handleSubscriptionCanceled`: upsert the profile
with plan "free" and status `subscription.status || "canceled"`, then run a
plain update (no insert on zero matched rows) on `user_subscriptions` by
`paddle_subscription_id`, setting status, `updated_at` and
`current_period_end` (defaulting to the current time). -/
def handleSubscriptionCanceled (store : Stores) (nowIso : String) (payload : Payload) :
    HandlerResult × Stores :=
  let subscription := payload.data.getD emptyEventData
  let customData := subscription.custom_data.getD emptyCustomData
  let userId := customData.userId.getD ""
  let userValidation := validateUser store userId
  if !userValidation.isValid then
    ({ success := false,
       message := some ("User validation failed: " ++ (userValidation.error.getD "undefined")) },
     store)
  else
    let profileStep :=
      upsertUserProfile store nowIso userId customData
        { status := jsOr subscription.status (some "canceled")
          planName := some "free"
          customerId := subscription.customer_id }
    if !profileStep.1.success then
      ({ success := false,
         message := some ("Profile update failed for cancellation: " ++
           (profileStep.1.error.getD "undefined")) },
       profileStep.2)
    else
      let store1 := profileStep.2
      let store2 :=
        { store1 with
            user_subscriptions := store1.user_subscriptions.map fun s =>
              if s.paddle_subscription_id == subscription.id then
                { s with
                    status := jsOr subscription.status (some "canceled")
                    updated_at := nowIso
                    current_period_end :=
                      jsOr (subscription.current_billing_period.bind BillingPeriod.ends_at)
                        (some nowIso) }
              else s }
      ({ success := true, message := some "Subscription cancellation processed successfully" },
       store2)

/-- The event router (the `switch` on `payload.event_type` in the entry
point): three handled event types, everything else acknowledged without
processing. -/
def routeEvent (store : Stores) (nowIso : String) (payload : Payload) :
    HandlerResult × Stores :=
  if payload.event_type == some "subscription.created"
      || payload.event_type == some "subscription.updated" then
    handleSubscriptionEvent store nowIso payload
  else if payload.event_type == some "transaction.completed" then
    handleTransactionCompleted store nowIso payload
  else if payload.event_type == some "subscription.canceled" then
    handleSubscriptionCanceled store nowIso payload
  else
    ({ success := true,
       message := some ("Event type " ++ payload.event_type.getD "undefined" ++
         " acknowledged but not processed") },
     store)

/-- The recognized environment variables. -/
structure EnvConfig where
  paddleWebhookSigningSecret : Option String
  appEnvironmentRaw : Option String
  supabaseUrl : Option String
  supabaseServiceRoleKey : Option String
deriving Repr, DecidableEq

/-- `APP_ENVIRONMENT` resolution: `Deno.env.get("APP_ENVIRONMENT") || "development"`. -/
def appEnvironment (env : EnvConfig) : String :=
  (jsOr env.appEnvironmentRaw (some "development")).getD "development"

/-- Shallow embedding of `validateEnvironment`: `SUPABASE_URL` and
`SUPABASE_SERVICE_ROLE_KEY` are always required, and a production
environment additionally requires the signing secret. -/
def validateEnvironment (env : EnvConfig) : Bool :=
  truthy env.supabaseUrl && truthy env.supabaseServiceRoleKey &&
    !(appEnvironment env == "production" && !truthy env.paddleWebhookSigningSecret)

/-- The HTTP response produced by the entry point; only the fields the source
ever writes are modelled (`received`, `message`, `error`, `reason`,
`details`), each absent from the JSON body when `none`. -/
structure HttpResponse where
  status : Nat
  received : Option Bool
  message : Option String
  error : Option String
  reason : Option String
  details : Option (List String)
deriving Repr, DecidableEq

/-- Shallow embedding of the `serve` request handler from reading the raw
body onward: signature verification (401 on failure), JSON parse (400 on
failure — the external `JSON.parse` outcome is the `parsedPayload`
parameter), structural validation (400 on failure), then event routing with
a 200 acknowledgment whose `received` field is the handler success flag.
`OPTIONS` preflight and the environment re-validation happen first. -/
def handleWebhookRequest (hmacHex : String → String → String) (env : EnvConfig)
    (method : String) (signatureHeader : Option String) (rawBody : String)
    (parsedPayload : Option Payload) (currentTimestamp : Int) (nowIso : String)
    (store : Stores) : HttpResponse × Stores :=
  if method == "OPTIONS" then
    ({ status := 200, received := none, message := none, error := none,
       reason := none, details := none }, store)
  else if !validateEnvironment env then
    ({ status := 500, received := none, message := none,
       error := some "Server configuration error", reason := none, details := none }, store)
  else
    let signatureResult :=
      verifyPaddleSignature hmacHex (appEnvironment env) env.paddleWebhookSigningSecret
        signatureHeader rawBody currentTimestamp
    if !signatureResult.isValid then
      ({ status := 401, received := none, message := none,
         error := some "Signature verification failed",
         reason := signatureResult.reason, details := none }, store)
    else
      match parsedPayload with
      | none =>
        ({ status := 400, received := none, message := none,
           error := some "Invalid JSON payload", reason := none, details := none }, store)
      | some payload =>
        let validation := validateWebhookPayload payload
        if !validation.isValid then
          ({ status := 400, received := none, message := none,
             error := some "Invalid payload structure", reason := none,
             details := some validation.errors }, store)
        else
          let routed := routeEvent store nowIso payload
          ({ status := 200, received := some routed.1.success,
             message := some ((jsOr routed.1.message (some "Event processed successfully")).getD ""),
             error := none, reason := none, details := none },
           routed.2)

/-! ### Concrete sample data used by the witness theorems -/

/-- A sample subscription plan row. -/
def samplePlan : Plan :=
  { id := "plan1", paddle_product_id := "p1", name := "Premium" }

/-- A sample store holding only the sample plan. -/
def sampleStore : Stores :=
  { profiles := [], subscription_plans := [samplePlan], user_subscriptions := [] }

/-- Sample event custom data with no email and no full name. -/
def sampleCustomData : CustomData :=
  { userId := some "u1", email := none, full_name := none }

/-- A sample subscription event data object whose first item carries the
sample plan's product id. -/
def sampleSubscriptionData : EventData :=
  { id := some "sub1", customer_id := some "c1", status := some "active",
    items := some [{ product_id := some "p1", price_id := none }], product_id := none,
    custom_data := some sampleCustomData,
    current_billing_period := some { starts_at := some "2024-01-01", ends_at := some "2024-02-01" },
    subscription_id := none }

/-- A one-time transaction (no `subscription_id`) whose only line item
carries neither `product_id` nor `price_id`, while the top-level
`product_id` names the sample plan. -/
def sampleMismatchedTransactionData : EventData :=
  { id := some "tx1", customer_id := some "c1", status := some "completed",
    items := some [{ product_id := none, price_id := none }], product_id := some "p1",
    custom_data := some sampleCustomData, current_billing_period := none,
    subscription_id := none }

/-- A one-time transaction whose first item carries the sample plan's
product id. -/
def sampleOneTimeTransactionData : EventData :=
  { sampleSubscriptionData with id := some "tx1" }

/-- A one-time transaction whose first item names an unknown product. -/
def sampleUnknownItemTransactionData : EventData :=
  { sampleSubscriptionData with
    id := some "tx2",
    items := some [{ product_id := some "unknownP", price_id := none }] }

/-- An existing profile row with a real email and full name. -/
def sampleRealProfile : Profile :=
  { user_id := "u1", email := "real@example.com", full_name := "Real Name",
    subscription_status := "active", subscription_plan := "premium",
    paddle_customer_id := some "c1", created_at := "t0", updated_at := "t0" }

/-- The sample store extended with the existing profile row. -/
def sampleStoreWithProfile : Stores :=
  { profiles := [sampleRealProfile], subscription_plans := [samplePlan],
    user_subscriptions := [] }

/-- A development-mode environment configuration. -/
def sampleDevEnv : EnvConfig :=
  { paddleWebhookSigningSecret := none, appEnvironmentRaw := some "development",
    supabaseUrl := some "u", supabaseServiceRoleKey := some "k" }

/-! ### Basic lemmas about the JavaScript-semantics helpers -/

theorem truthy_some_iff (s : String) : truthy (some s) = true ↔ s ≠ "" := by
  simp only [truthy, Bool.not_eq_true']
  rw [Bool.eq_false_iff]
  exact not_congr (String.isEmpty_iff s)

theorem truthy_some_of_ne {s : String} (h : s ≠ "") : truthy (some s) = true :=
  (truthy_some_iff s).mpr h

theorem jsToLower_eq_empty_iff (s : String) : jsToLower s = "" ↔ s = "" := by
  cases s with
  | mk l => cases l <;> simp [jsToLower, String.ext_iff]

theorem jsOr_of_truthy {a : Option String} (b : Option String) (h : truthy a = true) :
    jsOr a b = a := by
  simp [jsOr, h]

theorem jsOr_of_not_truthy {a : Option String} (b : Option String) (h : truthy a = false) :
    jsOr a b = b := by
  simp [jsOr, h]

theorem truthy_jsOr_right (a : Option String) {b : Option String}
    (hb : truthy b = true) : truthy (jsOr a b) = true := by
  unfold jsOr
  split_ifs with h
  · exact h
  · exact hb

theorem find?_map_replace {α} (p : α → Bool) (new : α) (hnew : p new = true) :
    ∀ l : List α, (l.find? p).isSome = true →
      (l.map fun x => if p x then new else x).find? p = some new := by
  intro l
  induction l with
  | nil => simp
  | cons a t ih =>
    intro _
    by_cases ha : p a = true
    · simp [ha, hnew]
    · have ha' : p a = false := by simpa using ha
      by_cases ht : (t.find? p).isSome = true
      · simpa [ha'] using ih ht
      · have hnone : t.find? p = none := by
          cases h : t.find? p with
          | none => rfl
          | some v => exact absurd (by simp [h]) ht
        have : ((a :: t).find? p).isSome = true := by assumption
        rw [List.find?_cons_of_neg _ (by simp [ha'])] at this
        simp [hnone] at this

theorem find?_append_singleton {α} (p : α → Bool) (new : α) (hnew : p new = true)
    (l : List α) (h : l.find? p = none) : (l ++ [new]).find? p = some new := by
  rw [List.find?_append, h]
  simp [hnew]

/-! ### Structural lemmas about the store operations -/

theorem validateUser_isValid (store : Stores) (u : String) :
    (validateUser store u).isValid = true := by
  unfold validateUser
  cases store.profiles.find? fun pr => pr.user_id == u <;> simp

theorem upsertUserProfile_success (store : Stores) (nowIso uid : String)
    (cd : CustomData) (sd : SubscriptionUpdate) :
    (upsertUserProfile store nowIso uid cd sd).1.success = true := by
  unfold upsertUserProfile
  cases store.profiles.find? fun pr => pr.user_id == uid <;> simp

theorem upsertUserProfile_plans (store : Stores) (nowIso uid : String)
    (cd : CustomData) (sd : SubscriptionUpdate) :
    (upsertUserProfile store nowIso uid cd sd).2.subscription_plans =
      store.subscription_plans := by
  unfold upsertUserProfile
  cases store.profiles.find? fun pr => pr.user_id == uid <;> simp

theorem upsertUserProfile_subscriptions (store : Stores) (nowIso uid : String)
    (cd : CustomData) (sd : SubscriptionUpdate) :
    (upsertUserProfile store nowIso uid cd sd).2.user_subscriptions =
      store.user_subscriptions := by
  unfold upsertUserProfile
  cases store.profiles.find? fun pr => pr.user_id == uid <;> simp

theorem upsertUserProfile_find? (store : Stores) (nowIso uid : String)
    (cd : CustomData) (sd : SubscriptionUpdate) :
    ∃ createdAt,
      ((upsertUserProfile store nowIso uid cd sd).2.profiles.find?
          fun pr => pr.user_id == uid) =
        some { user_id := uid
               email := (jsOr cd.email (some "unknown@example.com")).getD ""
               full_name := (jsOr cd.full_name (some "Unknown User")).getD ""
               subscription_status := (jsOr sd.status (some "active")).getD ""
               subscription_plan := (jsOr sd.planName (some "unknown")).getD ""
               paddle_customer_id := sd.customerId
               created_at := createdAt
               updated_at := nowIso } := by
  unfold upsertUserProfile
  cases h : store.profiles.find? fun pr => pr.user_id == uid with
  | some old =>
    refine ⟨old.created_at, ?_⟩
    simpa using find?_map_replace (fun pr => pr.user_id == uid) _ (by simp) store.profiles
      (by simp [h])
  | none =>
    refine ⟨nowIso, ?_⟩
    have := find?_append_singleton (fun pr => pr.user_id == uid)
      { user_id := uid
        email := (jsOr cd.email (some "unknown@example.com")).getD ""
        full_name := (jsOr cd.full_name (some "Unknown User")).getD ""
        subscription_status := (jsOr sd.status (some "active")).getD ""
        subscription_plan := (jsOr sd.planName (some "unknown")).getD ""
        paddle_customer_id := sd.customerId
        created_at := nowIso
        updated_at := nowIso } (by simp) store.profiles h
    simpa using this

theorem upsertSubscription_success (store : Stores) (nowIso : String)
    (sd : SubscriptionRecordData) :
    (upsertSubscription store nowIso sd).1.success = true := by
  unfold upsertSubscription
  cases store.user_subscriptions.find?
      fun s => s.paddle_subscription_id == sd.paddleSubscriptionId <;> simp

theorem upsertSubscription_profiles (store : Stores) (nowIso : String)
    (sd : SubscriptionRecordData) :
    (upsertSubscription store nowIso sd).2.profiles = store.profiles := by
  unfold upsertSubscription
  cases store.user_subscriptions.find?
      fun s => s.paddle_subscription_id == sd.paddleSubscriptionId <;> simp

/-- In production the bypass branch of `verifyPaddleSignature` is
structurally unreachable: no execution reports `bypassed_for_development`. -/
theorem verify_production_never_bypasses (hmacHex : String → String → String)
    (secret header : Option String) (body : String) (now : Int) :
    (verifyPaddleSignature hmacHex "production" secret header body now).reason ≠
      some "bypassed_for_development" := by
  intro hcontra
  unfold verifyPaddleSignature at hcontra
  rw [if_neg (fun hc => hc rfl)] at hcontra
  split_ifs at hcontra <;> try simp_all
  by_cases hfmt : truthy (headerField (jsSplit (header.getD "") ';') "ts=") = false ∨
      truthy (headerField (jsSplit (header.getD "") ';') "h1=") = false
  · rw [if_pos hfmt] at hcontra
    simp at hcontra
  · rw [if_neg hfmt] at hcontra
    rcases hp : jsParseInt ((headerField (jsSplit (header.getD "") ';') "ts=").getD "") with _ | t <;>
      simp only [hp] at hcontra
    · simp at hcontra
    · split_ifs at hcontra <;> simp_all

/-! ### Claim theorems -/

/-- C1: in production mode with no configured signing secret, verification
fails closed with reason `missing_signing_secret` and never bypasses; in any
non-production mode verification reports `bypassed_for_development`
regardless of header presence or content; and in production mode the bypass
reason is structurally unreachable. -/
theorem c1_environment_gating (hmacHex : String → String → String) (appEnv : String)
    (secret header : Option String) (body : String) (now : Int) :
    (appEnv = "production" → truthy secret = false →
      verifyPaddleSignature hmacHex appEnv secret header body now =
        { isValid := false, reason := some "missing_signing_secret" }) ∧
    (appEnv ≠ "production" →
      verifyPaddleSignature hmacHex appEnv secret header body now =
        { isValid := true, reason := some "bypassed_for_development" }) ∧
    (appEnv = "production" →
      (verifyPaddleSignature hmacHex appEnv secret header body now).reason ≠
        some "bypassed_for_development") := by
  refine ⟨fun hprod hsec => ?_, fun hne => ?_, fun hprod => ?_⟩
  · subst hprod
    unfold verifyPaddleSignature
    rw [if_neg (fun hc => hc rfl)]
    simp [hsec]
  · unfold verifyPaddleSignature
    rw [if_pos hne]
  · subst hprod
    exact verify_production_never_bypasses hmacHex secret header body now

/-- Witness for C1 at concrete inputs: production without a secret fails
closed, development bypasses, production with a secret never reports the
bypass reason. -/
theorem c1_environment_gating_witness :
    verifyPaddleSignature (fun _ _ => "h") "production" none (some "ts=1;h1=aa") "b" 0 =
      { isValid := false, reason := some "missing_signing_secret" } ∧
    verifyPaddleSignature (fun _ _ => "h") "development" none none "b" 0 =
      { isValid := true, reason := some "bypassed_for_development" } ∧
    (verifyPaddleSignature (fun _ _ => "h") "production" (some "s") (some "ts=1;h1=aa") "b" 0).reason ≠
      some "bypassed_for_development" := by
  refine ⟨?_, ?_, ?_⟩
  · exact (c1_environment_gating (fun _ _ => "h") "production" none (some "ts=1;h1=aa") "b" 0).1
      rfl (by decide)
  · exact (c1_environment_gating (fun _ _ => "h") "development" none none "b" 0).2.1 (by decide)
  · exact (c1_environment_gating (fun _ _ => "h") "production" (some "s") (some "ts=1;h1=aa") "b" 0).2.2 rfl

/-- C2: in production, for a signature header carrying a timestamp within the
300-second window, verification succeeds exactly when the case-insensitively
compared hex HMAC of the canonical string `ts ++ ":" ++ rawBody` under the
shared secret equals `h1`; any body whose HMAC differs from `h1` fails with
reason `signature_mismatch` (the collision-freeness of the external
HMAC-SHA256 primitive itself is a cryptographic assumption outside this
embedding, which abstracts the primitive as `hmacHex`). -/
theorem c2_hmac_validation (hmacHex : String → String → String) (secret : String)
    (header tsS h1 body : String) (ts now : Int)
    (hsec : secret ≠ "") (hhdr : header ≠ "")
    (hts : headerField (jsSplit header ';') "ts=" = some tsS)
    (hh1 : headerField (jsSplit header ';') "h1=" = some h1)
    (htsne : tsS ≠ "") (hh1ne : h1 ≠ "")
    (hparse : jsParseInt tsS = some ts)
    (hwin : (now - ts).natAbs ≤ 300) :
    ((verifyPaddleSignature hmacHex "production" (some secret) (some header) body now).isValid =
        true ↔
      jsToLower (hmacHex secret (tsS ++ ":" ++ body)) = jsToLower h1) ∧
    (jsToLower (hmacHex secret (tsS ++ ":" ++ body)) = jsToLower h1 →
      verifyPaddleSignature hmacHex "production" (some secret) (some header) body now =
        { isValid := true, reason := some "valid" }) ∧
    (∀ body', jsToLower (hmacHex secret (tsS ++ ":" ++ body')) ≠ jsToLower h1 →
      verifyPaddleSignature hmacHex "production" (some secret) (some header) body' now =
        { isValid := false, reason := some "signature_mismatch" }) := by
  have key : ∀ b, verifyPaddleSignature hmacHex "production" (some secret) (some header) b now =
      if jsToLower (hmacHex secret (tsS ++ ":" ++ b)) = jsToLower h1 then
        { isValid := true, reason := some "valid" }
      else { isValid := false, reason := some "signature_mismatch" } := by
    intro b
    unfold verifyPaddleSignature
    rw [if_neg (fun hc => hc rfl)]
    simp only [truthy_some_of_ne hsec, truthy_some_of_ne hhdr, Bool.not_true,
      Option.getD_some, hts, hh1, truthy_some_of_ne htsne, truthy_some_of_ne hh1ne,
      Bool.or_self, Bool.false_eq_true, if_false, hparse, webhookTimestampToleranceSeconds]
    rw [if_neg (by omega)]
  refine ⟨?_, fun he => by rw [key body, if_pos he],
    fun b' hne => by rw [key b', if_neg hne]⟩
  constructor
  · intro hv
    by_contra hne
    rw [key body, if_neg hne] at hv
    simp at hv
  · intro he
    rw [key body, if_pos he]

/-- Witness for C2: a matching HMAC validates, and a one-byte body mutation
whose HMAC differs is rejected with `signature_mismatch`. -/
theorem c2_hmac_validation_witness :
    verifyPaddleSignature (fun _ m => if m = "100:hello" then "aa" else "bb")
        "production" (some "s") (some "ts=100;h1=AA") "hello" 200 =
      { isValid := true, reason := some "valid" } ∧
    verifyPaddleSignature (fun _ m => if m = "100:hello" then "aa" else "bb")
        "production" (some "s") (some "ts=100;h1=AA") "hullo" 200 =
      { isValid := false, reason := some "signature_mismatch" } := by
  refine ⟨?_, ?_⟩
  · exact (c2_hmac_validation (fun _ m => if m = "100:hello" then "aa" else "bb")
      "s" "ts=100;h1=AA" "100" "AA" "hello" 100 200 (by decide) (by decide) (by decide)
      (by decide) (by decide) (by decide) (by decide) (by decide)).2.1 (by decide)
  · exact (c2_hmac_validation (fun _ m => if m = "100:hello" then "aa" else "bb")
      "s" "ts=100;h1=AA" "100" "AA" "hello" 100 200 (by decide) (by decide) (by decide)
      (by decide) (by decide) (by decide) (by decide) (by decide)).2.2 "hullo" (by decide)

/-- C3: in production, when the header timestamp differs from the current
time by more than 300 seconds in either direction, verification fails with
reason `timestamp_too_old`, for every HMAC primitive and body (hence
regardless of HMAC correctness). -/
theorem c3_stale_timestamp (hmacHex : String → String → String) (secret : String)
    (header tsS h1 body : String) (ts now : Int)
    (hsec : secret ≠ "") (hhdr : header ≠ "")
    (hts : headerField (jsSplit header ';') "ts=" = some tsS)
    (hh1 : headerField (jsSplit header ';') "h1=" = some h1)
    (htsne : tsS ≠ "") (hh1ne : h1 ≠ "")
    (hparse : jsParseInt tsS = some ts)
    (hwin : (now - ts).natAbs > 300) :
    verifyPaddleSignature hmacHex "production" (some secret) (some header) body now =
      { isValid := false, reason := some "timestamp_too_old" } := by
  unfold verifyPaddleSignature
  rw [if_neg (fun hc => hc rfl)]
  simp only [truthy_some_of_ne hsec, truthy_some_of_ne hhdr, Bool.not_true,
    Option.getD_some, hts, hh1, truthy_some_of_ne htsne, truthy_some_of_ne hh1ne,
    Bool.or_self, Bool.false_eq_true, if_false, hparse, webhookTimestampToleranceSeconds]
  rw [if_pos (by omega)]

/-- Witness for C3: a stale timestamp (900 seconds in the past) fails with
`timestamp_too_old` even though the HMAC would match. -/
theorem c3_stale_timestamp_witness :
    verifyPaddleSignature (fun _ m => if m = "100:hello" then "aa" else "bb")
        "production" (some "s") (some "ts=100;h1=AA") "hello" 1000 =
      { isValid := false, reason := some "timestamp_too_old" } := by
  exact c3_stale_timestamp (fun _ m => if m = "100:hello" then "aa" else "bb")
    "s" "ts=100;h1=AA" "100" "AA" "hello" 100 1000 (by decide) (by decide) (by decide)
    (by decide) (by decide) (by decide) (by decide) (by decide)

/-- C4 counterexample: with a present but non-parseable `ts` value the code
fails with reason `invalid_timestamp`, not `invalid_signature_format` as the
claim states. -/
theorem c4_counterexample :
    jsParseInt "abc" = none ∧
    verifyPaddleSignature (fun _ _ => "h") "production" (some "sec")
        (some "ts=abc;h1=dead") "body" 0 =
      { isValid := false, reason := some "invalid_timestamp" } ∧
    (verifyPaddleSignature (fun _ _ => "h") "production" (some "sec")
        (some "ts=abc;h1=dead") "body" 0).reason ≠
      some "invalid_signature_format" := by
  decide

/-- C4 amended: in production, a header lacking the `ts=` field or the `h1=`
field (or carrying an empty value for one of them) fails with
`invalid_signature_format`, while a present, non-empty but non-parseable
`ts` value fails with the distinct reason `invalid_timestamp`. -/
theorem c4_amended_format_errors (hmacHex : String → String → String)
    (secret header body : String) (now : Int)
    (hsec : secret ≠ "") (hhdr : header ≠ "") :
    ((truthy (headerField (jsSplit header ';') "ts=") = false ∨
        truthy (headerField (jsSplit header ';') "h1=") = false) →
      verifyPaddleSignature hmacHex "production" (some secret) (some header) body now =
        { isValid := false, reason := some "invalid_signature_format" }) ∧
    (∀ tsS h1, headerField (jsSplit header ';') "ts=" = some tsS →
      headerField (jsSplit header ';') "h1=" = some h1 →
      tsS ≠ "" → h1 ≠ "" → jsParseInt tsS = none →
      verifyPaddleSignature hmacHex "production" (some secret) (some header) body now =
        { isValid := false, reason := some "invalid_timestamp" }) := by
  constructor
  · intro hmiss
    unfold verifyPaddleSignature
    rw [if_neg (fun hc => hc rfl)]
    simp only [truthy_some_of_ne hsec, truthy_some_of_ne hhdr, Bool.not_true,
      Option.getD_some]
    rcases hmiss with h | h <;> simp [h]
  · intro tsS h1 hts hh1 htsne hh1ne hparse
    unfold verifyPaddleSignature
    rw [if_neg (fun hc => hc rfl)]
    simp only [truthy_some_of_ne hsec, truthy_some_of_ne hhdr, Bool.not_true,
      Option.getD_some, hts, hh1, truthy_some_of_ne htsne, truthy_some_of_ne hh1ne,
      Bool.or_self, Bool.false_eq_true, if_false, hparse]

/-- Witness for the amended C4: a header with no `h1=` field yields
`invalid_signature_format`; a header whose `ts` value is `abc` yields
`invalid_timestamp`. -/
theorem c4_amended_format_errors_witness :
    verifyPaddleSignature (fun _ _ => "h") "production" (some "sec") (some "ts=1") "b" 0 =
      { isValid := false, reason := some "invalid_signature_format" } ∧
    verifyPaddleSignature (fun _ _ => "h") "production" (some "sec")
        (some "ts=abc;h1=dead") "b" 0 =
      { isValid := false, reason := some "invalid_timestamp" } := by
  refine ⟨?_, ?_⟩
  · exact (c4_amended_format_errors (fun _ _ => "h") "sec" "ts=1" "b" 0
      (by decide) (by decide)).1 (by decide)
  · exact (c4_amended_format_errors (fun _ _ => "h") "sec" "ts=abc;h1=dead" "b" 0
      (by decide) (by decide)).2 "abc" "dead" (by decide) (by decide) (by decide)
      (by decide) (by decide)

/-- C5 counterexample: a payload with no `data` object at all is in
particular missing `data.custom_data.userId`, yet the validator's error list
contains only the missing-`data` error and not the userId error. -/
theorem c5_counterexample :
    (validateWebhookPayload
        { event_type := some "t", event_id := some "e", data := none }).errors =
      ["Missing data object"] ∧
    "Missing userId in custom_data" ∉
      (validateWebhookPayload
        { event_type := some "t", event_id := some "e", data := none }).errors := by
  decide

/-- C5 amended: the validator returns the complete ordered list of all
violated rules (no short-circuit), where the `userId` rule is checked only
when `data` is present; validity holds exactly when the list is empty.  In
particular a payload with `data` present but `custom_data.userId` missing
lists that error alongside every other violated rule, while a payload with
`data` absent reports only the missing-`data` error for that subtree. -/
theorem c5_amended_complete_errors (payload : Payload) :
    (validateWebhookPayload payload).errors =
      (if truthy payload.event_type then [] else ["Missing event_type"]) ++
      (if truthy payload.event_id then [] else ["Missing event_id"]) ++
      (if payload.data.isSome then [] else ["Missing data object"]) ++
      (if payload.data.isSome ∧
          truthy ((payload.data.bind EventData.custom_data).bind CustomData.userId) = false
        then ["Missing userId in custom_data"] else []) ∧
    ((validateWebhookPayload payload).isValid = true ↔
      (validateWebhookPayload payload).errors = []) := by
  constructor
  · rcases payload with ⟨et, ei, dt⟩
    cases dt with
    | none =>
      cases ht : truthy et <;> cases he : truthy ei <;>
        simp [validateWebhookPayload, ht, he]
    | some d =>
      cases ht : truthy et <;> cases he : truthy ei <;>
        cases hu : truthy (d.custom_data.bind CustomData.userId) <;>
          simp [validateWebhookPayload, ht, he, hu]
  · rw [show (validateWebhookPayload payload).isValid =
        (validateWebhookPayload payload).errors.isEmpty from rfl]
    exact List.isEmpty_iff

/-! ### Reduction lemmas for the event handlers -/

theorem handleSubscriptionEvent_missing_pid
    (store : Stores) (nowIso : String) (payload : Payload) (d : EventData)
    (hd : payload.data = some d)
    (hres : truthy (resolvedProductId d) = false) :
    handleSubscriptionEvent store nowIso payload =
      ({ success := false, message := some "Product ID missing in subscription data" },
       store) := by
  unfold handleSubscriptionEvent
  simp [hd, validateUser_isValid, hres]

theorem handleSubscriptionEvent_plan_not_found
    (store : Stores) (nowIso : String) (payload : Payload) (d : EventData) (pid : String)
    (hd : payload.data = some d)
    (hres : resolvedProductId d = some pid) (hpid : pid ≠ "")
    (hplan : store.subscription_plans.find? (fun pl => pl.paddle_product_id == pid) = none) :
    handleSubscriptionEvent store nowIso payload =
      ({ success := false,
         message := some ("Subscription plan not found for product ID: " ++ pid) },
       store) := by
  unfold handleSubscriptionEvent
  simp [hd, validateUser_isValid, hres, truthy_some_of_ne hpid, hplan]

theorem handleSubscriptionEvent_plan_found
    (store : Stores) (nowIso : String) (payload : Payload) (d : EventData) (cd : CustomData)
    (pid : String) (plan : Plan)
    (hd : payload.data = some d) (hcd : d.custom_data = some cd)
    (hres : resolvedProductId d = some pid) (hpid : pid ≠ "")
    (hplan : store.subscription_plans.find? (fun pl => pl.paddle_product_id == pid) =
      some plan) :
    handleSubscriptionEvent store nowIso payload =
      ({ success := true,
         message := some ("Subscription " ++ d.status.getD "undefined" ++
           " processed successfully for plan " ++ plan.name) },
       (upsertSubscription
         (upsertUserProfile store nowIso (cd.userId.getD "") cd
           { status := d.status
             planName := some (jsToLower plan.name)
             customerId := d.customer_id }).2
         nowIso
         { userId := cd.userId.getD ""
           planId := plan.id
           paddleSubscriptionId := d.id
           status := d.status
           currentPeriodStart := d.current_billing_period.bind BillingPeriod.starts_at
           currentPeriodEnd := d.current_billing_period.bind BillingPeriod.ends_at }).2) := by
  unfold handleSubscriptionEvent
  simp [hd, hcd, validateUser_isValid, hres, truthy_some_of_ne hpid, hplan,
    upsertUserProfile_success, upsertSubscription_success]

theorem handleTransactionCompleted_skip
    (store : Stores) (nowIso : String) (payload : Payload) (d : EventData)
    (hd : payload.data = some d)
    (hskip : ¬(truthy d.subscription_id = false ∧ 0 < (d.items.getD []).length)) :
    handleTransactionCompleted store nowIso payload =
      ({ success := true, message := some "Transaction completed event processed successfully" },
       store) := by
  unfold handleTransactionCompleted
  simp only [hd, Option.getD_some, validateUser_isValid, Bool.not_true, Bool.false_eq_true,
    if_false]
  rw [if_neg]
  intro hc
  rcases Bool.and_eq_true _ _ |>.mp hc with ⟨h1, h2⟩
  exact hskip ⟨by simpa using h1, by simpa using h2⟩

theorem handleTransactionCompleted_unresolved_pid
    (store : Stores) (nowIso : String) (payload : Payload) (d : EventData) (item : Item)
    (rest : List Item)
    (hd : payload.data = some d) (hsub : truthy d.subscription_id = false)
    (hitems : d.items = some (item :: rest))
    (hpid : truthy (jsOr item.product_id item.price_id) = false) :
    handleTransactionCompleted store nowIso payload =
      ({ success := true, message := some "Transaction completed event processed successfully" },
       store) := by
  unfold handleTransactionCompleted
  simp [hd, hitems, validateUser_isValid, hsub, firstItem, hpid]

theorem handleTransactionCompleted_plan_not_found
    (store : Stores) (nowIso : String) (payload : Payload) (d : EventData) (item : Item)
    (rest : List Item) (pid : String)
    (hd : payload.data = some d) (hsub : truthy d.subscription_id = false)
    (hitems : d.items = some (item :: rest))
    (hpid : jsOr item.product_id item.price_id = some pid) (hpidne : pid ≠ "")
    (hplan : store.subscription_plans.find? (fun pl => pl.paddle_product_id == pid) = none) :
    handleTransactionCompleted store nowIso payload =
      ({ success := true, message := some "Transaction completed event processed successfully" },
       store) := by
  unfold handleTransactionCompleted
  simp [hd, hitems, validateUser_isValid, hsub, firstItem, hpid, truthy_some_of_ne hpidne,
    hplan]

theorem handleTransactionCompleted_plan_found
    (store : Stores) (nowIso : String) (payload : Payload) (d : EventData) (cd : CustomData)
    (item : Item) (rest : List Item) (pid : String) (plan : Plan)
    (hd : payload.data = some d) (hcd : d.custom_data = some cd)
    (hsub : truthy d.subscription_id = false)
    (hitems : d.items = some (item :: rest))
    (hpid : jsOr item.product_id item.price_id = some pid) (hpidne : pid ≠ "")
    (hplan : store.subscription_plans.find? (fun pl => pl.paddle_product_id == pid) =
      some plan) :
    handleTransactionCompleted store nowIso payload =
      ({ success := true, message := some "Transaction completed event processed successfully" },
       (upsertUserProfile store nowIso (cd.userId.getD "") cd
         { status := some "active"
           planName := some (jsToLower plan.name)
           customerId := d.customer_id }).2) := by
  unfold handleTransactionCompleted
  simp [hd, hcd, hitems, validateUser_isValid, hsub, firstItem, hpid,
    truthy_some_of_ne hpidne, hplan, upsertUserProfile_success]

theorem handleSubscriptionCanceled_eq
    (store : Stores) (nowIso : String) (payload : Payload) (d : EventData) (cd : CustomData)
    (hd : payload.data = some d) (hcd : d.custom_data = some cd) :
    handleSubscriptionCanceled store nowIso payload =
      ({ success := true, message := some "Subscription cancellation processed successfully" },
       { profiles := (upsertUserProfile store nowIso (cd.userId.getD "") cd
           { status := jsOr d.status (some "canceled")
             planName := some "free"
             customerId := d.customer_id }).2.profiles
         subscription_plans := (upsertUserProfile store nowIso (cd.userId.getD "") cd
           { status := jsOr d.status (some "canceled")
             planName := some "free"
             customerId := d.customer_id }).2.subscription_plans
         user_subscriptions := store.user_subscriptions.map fun s =>
           if s.paddle_subscription_id == d.id then
             { s with
                status := jsOr d.status (some "canceled")
                updated_at := nowIso
                current_period_end :=
                  jsOr (d.current_billing_period.bind BillingPeriod.ends_at) (some nowIso) }
           else s }) := by
  unfold handleSubscriptionCanceled
  simp [hd, hcd, validateUser_isValid, upsertUserProfile_success,
    upsertUserProfile_subscriptions]

/-- C6: for subscription.created / subscription.updated events the product
identifier is resolved as `items[0].product_id`, falling back to
`items[0].price_id`, falling back to the top-level `product_id` (first
non-empty wins, the `jsOr` chain); a missing identifier fails with the
product-id-missing message and no store mutation; an identifier matching no
SubscriptionPlan fails hard with the plan-not-found message and no store
mutation (no default plan); and when a plan matches, the handler succeeds
and the profile is upserted with the plan name lower-cased. -/
theorem c6_subscription_sync
    (store : Stores) (nowIso : String) (payload : Payload) (d : EventData) (cd : CustomData)
    (uid : String)
    (hd : payload.data = some d) (hcd : d.custom_data = some cd)
    (huid : cd.userId = some uid) :
    (resolvedProductId d =
      jsOr (jsOr ((firstItem d).bind Item.product_id) ((firstItem d).bind Item.price_id))
        d.product_id) ∧
    (truthy (resolvedProductId d) = false →
      handleSubscriptionEvent store nowIso payload =
        ({ success := false, message := some "Product ID missing in subscription data" },
         store)) ∧
    (∀ pid, resolvedProductId d = some pid → pid ≠ "" →
      store.subscription_plans.find? (fun pl => pl.paddle_product_id == pid) = none →
      handleSubscriptionEvent store nowIso payload =
        ({ success := false,
           message := some ("Subscription plan not found for product ID: " ++ pid) },
         store)) ∧
    (∀ pid plan, resolvedProductId d = some pid → pid ≠ "" →
      store.subscription_plans.find? (fun pl => pl.paddle_product_id == pid) = some plan →
      plan.name ≠ "" →
      (handleSubscriptionEvent store nowIso payload).1.success = true ∧
      ∃ row, ((handleSubscriptionEvent store nowIso payload).2.profiles.find?
          fun pr => pr.user_id == uid) = some row ∧
        row.subscription_plan = jsToLower plan.name) := by
  refine ⟨rfl, fun hres => handleSubscriptionEvent_missing_pid store nowIso payload d hd hres,
    fun pid hres hpid hplan =>
      handleSubscriptionEvent_plan_not_found store nowIso payload d pid hd hres hpid hplan,
    fun pid plan hres hpid hplan hname => ?_⟩
  rw [handleSubscriptionEvent_plan_found store nowIso payload d cd pid plan hd hcd hres hpid
    hplan]
  refine ⟨rfl, ?_⟩
  rw [upsertSubscription_profiles]
  simp only [huid, Option.getD_some]
  obtain ⟨ca, hfind⟩ := upsertUserProfile_find? store nowIso uid cd
    { status := d.status, planName := some (jsToLower plan.name), customerId := d.customer_id }
  refine ⟨_, hfind, ?_⟩
  have hlow : jsToLower plan.name ≠ "" := fun h => hname ((jsToLower_eq_empty_iff plan.name).mp h)
  simp [jsOr_of_truthy _ (truthy_some_of_ne hlow)]

/-- Witness for C6: the sample subscription.created event against the sample
store succeeds and stores the lower-cased plan name. -/
theorem c6_subscription_sync_witness :
    (handleSubscriptionEvent sampleStore "now"
        { event_type := some "subscription.created", event_id := some "e1",
          data := some sampleSubscriptionData }).1.success = true ∧
    ∃ row, ((handleSubscriptionEvent sampleStore "now"
        { event_type := some "subscription.created", event_id := some "e1",
          data := some sampleSubscriptionData }).2.profiles.find?
        fun pr => pr.user_id == "u1") = some row ∧
      row.subscription_plan = jsToLower "Premium" := by
  exact (c6_subscription_sync sampleStore "now"
    { event_type := some "subscription.created", event_id := some "e1",
      data := some sampleSubscriptionData }
    sampleSubscriptionData sampleCustomData "u1" rfl rfl rfl).2.2.2 "p1" samplePlan
    (by decide) (by decide) (by decide) (by decide)

/-- C7 counterexample: a one-time transaction whose only line item carries
neither `product_id` nor `price_id` but whose top-level `product_id` names a
known plan.  Under the claimed resolution (same fallback chain as the
subscription path, ending in the top-level `product_id`) a matching plan
exists and the profile would be upserted; the code never consults the
top-level field on this path and leaves the store untouched. -/
theorem c7_counterexample :
    handleTransactionCompleted sampleStore "now"
        { event_type := some "transaction.completed", event_id := some "e2",
          data := some sampleMismatchedTransactionData } =
      ({ success := true, message := some "Transaction completed event processed successfully" },
       sampleStore) ∧
    ((handleTransactionCompleted sampleStore "now"
        { event_type := some "transaction.completed", event_id := some "e2",
          data := some sampleMismatchedTransactionData }).2.profiles.find?
        fun pr => pr.user_id == "u1") = none ∧
    sampleStore.subscription_plans.find?
        (fun pl => pl.paddle_product_id ==
          ((resolvedProductId sampleMismatchedTransactionData).getD "")) = some samplePlan := by
  decide

/-- C7 amended: the transaction.completed handler only mutates state when
the transaction has no `subscription_id` and at least one line item, and
resolves the product identifier as `items[0].product_id` falling back to
`items[0].price_id` only — the top-level `product_id` is not consulted on
this path (unlike subscription sync); when a plan matches the profile is
upserted with status forced to "active" and that plan, and when no plan
matches (or the identifier is unresolvable) the event is still acknowledged
as processed successfully with no profile mutation. -/
theorem c7_transaction_sync_amended
    (store : Stores) (nowIso : String) (payload : Payload) (d : EventData) (cd : CustomData)
    (uid : String)
    (hd : payload.data = some d) (hcd : d.custom_data = some cd)
    (huid : cd.userId = some uid) :
    (¬(truthy d.subscription_id = false ∧ 0 < (d.items.getD []).length) →
      handleTransactionCompleted store nowIso payload =
        ({ success := true,
           message := some "Transaction completed event processed successfully" }, store)) ∧
    (∀ item rest, truthy d.subscription_id = false → d.items = some (item :: rest) →
      truthy (jsOr item.product_id item.price_id) = false →
      handleTransactionCompleted store nowIso payload =
        ({ success := true,
           message := some "Transaction completed event processed successfully" }, store)) ∧
    (∀ item rest pid, truthy d.subscription_id = false → d.items = some (item :: rest) →
      jsOr item.product_id item.price_id = some pid → pid ≠ "" →
      store.subscription_plans.find? (fun pl => pl.paddle_product_id == pid) = none →
      handleTransactionCompleted store nowIso payload =
        ({ success := true,
           message := some "Transaction completed event processed successfully" }, store)) ∧
    (∀ item rest pid plan, truthy d.subscription_id = false → d.items = some (item :: rest) →
      jsOr item.product_id item.price_id = some pid → pid ≠ "" →
      store.subscription_plans.find? (fun pl => pl.paddle_product_id == pid) = some plan →
      plan.name ≠ "" →
      (handleTransactionCompleted store nowIso payload).1.success = true ∧
      ∃ row, ((handleTransactionCompleted store nowIso payload).2.profiles.find?
          fun pr => pr.user_id == uid) = some row ∧
        row.subscription_status = "active" ∧
        row.subscription_plan = jsToLower plan.name) := by
  refine ⟨fun hskip => handleTransactionCompleted_skip store nowIso payload d hd hskip,
    fun item rest hsub hitems hpid =>
      handleTransactionCompleted_unresolved_pid store nowIso payload d item rest hd hsub
        hitems hpid,
    fun item rest pid hsub hitems hpid hpidne hplan =>
      handleTransactionCompleted_plan_not_found store nowIso payload d item rest pid hd hsub
        hitems hpid hpidne hplan,
    fun item rest pid plan hsub hitems hpid hpidne hplan hname => ?_⟩
  rw [handleTransactionCompleted_plan_found store nowIso payload d cd item rest pid plan hd
    hcd hsub hitems hpid hpidne hplan]
  refine ⟨rfl, ?_⟩
  simp only [huid, Option.getD_some]
  obtain ⟨ca, hfind⟩ := upsertUserProfile_find? store nowIso uid cd
    { status := some "active", planName := some (jsToLower plan.name),
      customerId := d.customer_id }
  refine ⟨_, hfind, ?_, ?_⟩
  · rfl
  · have hlow : jsToLower plan.name ≠ "" :=
      fun h => hname ((jsToLower_eq_empty_iff plan.name).mp h)
    simp [jsOr_of_truthy _ (truthy_some_of_ne hlow)]

/-- Witness for the amended C7: a one-time transaction whose first item
names the sample plan forces the profile status to "active" with the
lower-cased plan, and a transaction with an unrecognized item is
acknowledged with no mutation. -/
theorem c7_transaction_sync_amended_witness :
    ((handleTransactionCompleted sampleStore "now"
        { event_type := some "transaction.completed", event_id := some "e2",
          data := some sampleOneTimeTransactionData }).1.success = true ∧
      ∃ row, ((handleTransactionCompleted sampleStore "now"
          { event_type := some "transaction.completed", event_id := some "e2",
            data := some sampleOneTimeTransactionData }).2.profiles.find?
          fun pr => pr.user_id == "u1") = some row ∧
        row.subscription_status = "active" ∧
        row.subscription_plan = jsToLower "Premium") ∧
    handleTransactionCompleted sampleStore "now"
        { event_type := some "transaction.completed", event_id := some "e2",
          data := some sampleUnknownItemTransactionData } =
      ({ success := true,
         message := some "Transaction completed event processed successfully" },
       sampleStore) := by
  constructor
  · exact (c7_transaction_sync_amended sampleStore "now"
      { event_type := some "transaction.completed", event_id := some "e2",
        data := some sampleOneTimeTransactionData }
      sampleOneTimeTransactionData sampleCustomData "u1" rfl rfl
      rfl).2.2.2 { product_id := some "p1", price_id := none } [] "p1" samplePlan
      (by decide) (by decide) (by decide) (by decide) (by decide) (by decide)
  · exact (c7_transaction_sync_amended sampleStore "now"
      { event_type := some "transaction.completed", event_id := some "e2",
        data := some sampleUnknownItemTransactionData }
      sampleUnknownItemTransactionData
      sampleCustomData "u1" rfl rfl rfl).2.2.1
      { product_id := some "unknownP", price_id := none } [] "unknownP"
      (by decide) (by decide) (by decide) (by decide) (by decide)

/-- C8: for every subscription.canceled event the handler succeeds, upserts
the profile with `subscription_plan = "free"` and status copied from the
event (defaulting to "canceled" when absent — the `jsOr` with "canceled"),
and then updates — never inserts — the `user_subscriptions` rows matched by
`paddle_subscription_id`, setting status and period end: the resulting table
is a pointwise map of the original (so its length is unchanged), and when no
row matches the table is exactly the original (no new row is created). -/
theorem c8_cancellation_sync
    (store : Stores) (nowIso : String) (payload : Payload) (d : EventData) (cd : CustomData)
    (uid : String)
    (hd : payload.data = some d) (hcd : d.custom_data = some cd)
    (huid : cd.userId = some uid) :
    (handleSubscriptionCanceled store nowIso payload).1.success = true ∧
    (∃ row, ((handleSubscriptionCanceled store nowIso payload).2.profiles.find?
        fun pr => pr.user_id == uid) = some row ∧
      row.subscription_plan = "free" ∧
      row.subscription_status = (jsOr d.status (some "canceled")).getD "") ∧
    ((handleSubscriptionCanceled store nowIso payload).2.user_subscriptions =
      store.user_subscriptions.map fun s =>
        if s.paddle_subscription_id == d.id then
          { s with
              status := jsOr d.status (some "canceled")
              updated_at := nowIso
              current_period_end :=
                jsOr (d.current_billing_period.bind BillingPeriod.ends_at) (some nowIso) }
        else s) ∧
    ((handleSubscriptionCanceled store nowIso payload).2.user_subscriptions.length =
      store.user_subscriptions.length) ∧
    ((∀ s ∈ store.user_subscriptions, (s.paddle_subscription_id == d.id) = false) →
      (handleSubscriptionCanceled store nowIso payload).2.user_subscriptions =
        store.user_subscriptions) := by
  rw [handleSubscriptionCanceled_eq store nowIso payload d cd hd hcd]
  refine ⟨rfl, ?_, rfl, by simp, fun hnone => ?_⟩
  · simp only [huid, Option.getD_some]
    obtain ⟨ca, hfind⟩ := upsertUserProfile_find? store nowIso uid cd
      { status := jsOr d.status (some "canceled"), planName := some "free",
        customerId := d.customer_id }
    refine ⟨_, hfind, rfl, ?_⟩
    have htr : truthy (jsOr d.status (some "canceled")) = true :=
      truthy_jsOr_right d.status (by decide)
    simp [jsOr_of_truthy _ htr]
  · have : (store.user_subscriptions.map fun s =>
        if s.paddle_subscription_id == d.id then
          { s with
              status := jsOr d.status (some "canceled")
              updated_at := nowIso
              current_period_end :=
                jsOr (d.current_billing_period.bind BillingPeriod.ends_at) (some nowIso) }
        else s) = store.user_subscriptions.map id := by
      refine List.map_congr_left fun s hs => ?_
      rw [hnone s hs]
      simp
    simpa using this

/-- Witness for C8: cancelling the sample subscription against a store that
has an existing profile and no matching subscription row sets the profile to
the free plan with status "canceled" and leaves the subscription table
unchanged (no insert). -/
theorem c8_cancellation_sync_witness :
    (handleSubscriptionCanceled sampleStore "now"
        { event_type := some "subscription.canceled", event_id := some "e3",
          data := some { sampleSubscriptionData with status := none } }).1.success = true ∧
    (∃ row, ((handleSubscriptionCanceled sampleStore "now"
        { event_type := some "subscription.canceled", event_id := some "e3",
          data := some { sampleSubscriptionData with status := none } }).2.profiles.find?
        fun pr => pr.user_id == "u1") = some row ∧
      row.subscription_plan = "free" ∧
      row.subscription_status =
        (jsOr ({ sampleSubscriptionData with status := none } : EventData).status
          (some "canceled")).getD "") ∧
    ((handleSubscriptionCanceled sampleStore "now"
        { event_type := some "subscription.canceled", event_id := some "e3",
          data := some { sampleSubscriptionData with status := none } }).2.user_subscriptions =
      sampleStore.user_subscriptions) := by
  have h := c8_cancellation_sync sampleStore "now"
    { event_type := some "subscription.canceled", event_id := some "e3",
      data := some { sampleSubscriptionData with status := none } }
    { sampleSubscriptionData with status := none } sampleCustomData "u1" rfl rfl rfl
  exact ⟨h.1, h.2.1, h.2.2.2.2 (by decide)⟩

/-- C9: every request that passes signature verification and payload
validation is answered with HTTP status 200 whose `received` field is
exactly the routed handler's success flag (and whose message and resulting
store are the handler's), even when the handler fails. -/
theorem c9_ack_semantics (hmacHex : String → String → String) (env : EnvConfig)
    (method : String) (header : Option String) (rawBody : String) (payload : Payload)
    (now : Int) (nowIso : String) (store : Stores)
    (hm : method ≠ "OPTIONS") (henv : validateEnvironment env = true)
    (hsig : (verifyPaddleSignature hmacHex (appEnvironment env)
      env.paddleWebhookSigningSecret header rawBody now).isValid = true)
    (hval : (validateWebhookPayload payload).isValid = true) :
    handleWebhookRequest hmacHex env method header rawBody (some payload) now nowIso store =
      ({ status := 200, received := some (routeEvent store nowIso payload).1.success,
         message := some ((jsOr (routeEvent store nowIso payload).1.message
           (some "Event processed successfully")).getD ""),
         error := none, reason := none, details := none },
       (routeEvent store nowIso payload).2) := by
  unfold handleWebhookRequest
  simp [hm, henv, hsig, hval]

/-- Witness for C9: in development mode (signature bypassed), a
subscription.created event with an unrecognized product id is answered 200
with `received := some false`, the plan-not-found failure message, and no
profile mutation. -/
theorem c9_ack_semantics_witness :
    handleWebhookRequest (fun _ _ => "h") sampleDevEnv "POST" none "body"
        (some
          { event_type := some "subscription.created", event_id := some "e1",
            data := some sampleUnknownItemTransactionData }) 0 "now" sampleStore =
      ({ status := 200, received := some false,
         message := some "Subscription plan not found for product ID: unknownP",
         error := none, reason := none, details := none },
       sampleStore) := by
  have h := c9_ack_semantics (fun _ _ => "h") sampleDevEnv "POST" none "body"
    { event_type := some "subscription.created", event_id := some "e1",
      data := some sampleUnknownItemTransactionData } 0 "now" sampleStore
    (by decide) (by decide) (by decide) (by decide)
  rw [h]
  decide

/-- C10: on the subscription, transaction and cancellation paths alike,
whenever the event's `custom_data` lacks `email` or `full_name` (absent or
empty), the upserted profile row stores `email = "unknown@example.com"` and
`full_name = "Unknown User"` — the `upsertUserProfile` update path writes
the full `profileData` record, so previously stored values are overwritten
even when a profile already exists. -/
theorem c10_profile_default_overwrite
    (store : Stores) (nowIso uid : String) (cd : CustomData) (sd : SubscriptionUpdate)
    (hemail : truthy cd.email = false) (hname : truthy cd.full_name = false) :
    (∃ row, ((upsertUserProfile store nowIso uid cd sd).2.profiles.find?
        fun pr => pr.user_id == uid) = some row ∧
      row.email = "unknown@example.com" ∧ row.full_name = "Unknown User") ∧
    (∀ payload d, payload.data = some d → d.custom_data = some cd → cd.userId = some uid →
      ∃ row, ((handleSubscriptionCanceled store nowIso payload).2.profiles.find?
          fun pr => pr.user_id == uid) = some row ∧
        row.email = "unknown@example.com" ∧ row.full_name = "Unknown User") ∧
    (∀ payload d pid plan, payload.data = some d → d.custom_data = some cd →
      cd.userId = some uid → resolvedProductId d = some pid → pid ≠ "" →
      store.subscription_plans.find? (fun pl => pl.paddle_product_id == pid) = some plan →
      ∃ row, ((handleSubscriptionEvent store nowIso payload).2.profiles.find?
          fun pr => pr.user_id == uid) = some row ∧
        row.email = "unknown@example.com" ∧ row.full_name = "Unknown User") ∧
    (∀ payload d item rest pid plan, payload.data = some d → d.custom_data = some cd →
      cd.userId = some uid → truthy d.subscription_id = false →
      d.items = some (item :: rest) → jsOr item.product_id item.price_id = some pid →
      pid ≠ "" →
      store.subscription_plans.find? (fun pl => pl.paddle_product_id == pid) = some plan →
      ∃ row, ((handleTransactionCompleted store nowIso payload).2.profiles.find?
          fun pr => pr.user_id == uid) = some row ∧
        row.email = "unknown@example.com" ∧ row.full_name = "Unknown User") := by
  have base : ∀ sd' : SubscriptionUpdate,
      ∃ row, ((upsertUserProfile store nowIso uid cd sd').2.profiles.find?
          fun pr => pr.user_id == uid) = some row ∧
        row.email = "unknown@example.com" ∧ row.full_name = "Unknown User" := by
    intro sd'
    obtain ⟨ca, hfind⟩ := upsertUserProfile_find? store nowIso uid cd sd'
    exact ⟨_, hfind, by simp [jsOr_of_not_truthy _ hemail],
      by simp [jsOr_of_not_truthy _ hname]⟩
  refine ⟨base sd, fun payload d hd hcd huid => ?_, fun payload d pid plan hd hcd huid hres
    hpid hplan => ?_, fun payload d item rest pid plan hd hcd huid hsub hitems hpid hpidne
    hplan => ?_⟩
  · rw [handleSubscriptionCanceled_eq store nowIso payload d cd hd hcd]
    simp only [huid, Option.getD_some]
    exact base _
  · rw [handleSubscriptionEvent_plan_found store nowIso payload d cd pid plan hd hcd hres
      hpid hplan, upsertSubscription_profiles]
    simp only [huid, Option.getD_some]
    exact base _
  · rw [handleTransactionCompleted_plan_found store nowIso payload d cd item rest pid plan
      hd hcd hsub hitems hpid hpidne hplan]
    simp only [huid, Option.getD_some]
    exact base _

/-- Witness for C10: cancelling against a store whose existing profile for
the user has a real email and name overwrites both with the defaults. -/
theorem c10_profile_default_overwrite_witness :
    ∃ row, ((upsertUserProfile sampleStoreWithProfile "now" "u1" sampleCustomData
        { status := some "active", planName := some "premium",
          customerId := some "c1" }).2.profiles.find?
        fun pr => pr.user_id == "u1") = some row ∧
      row.email = "unknown@example.com" ∧ row.full_name = "Unknown User" :=
  (c10_profile_default_overwrite sampleStoreWithProfile "now" "u1" sampleCustomData
    { status := some "active", planName := some "premium", customerId := some "c1" }
    (by decide) (by decide)).1

end PaddleWebhook
